import Mathlib

/-!
Verification of the reporting-hierarchy validator
(`validate_reporting_hierarchy.py`).

The Python source is shallowly embedded below.  Dataframes become a
`DF` structure (a column-name list plus positionally aligned rows of
cells); pandas column operations become list operations; Python `dict`s
(which iterate in insertion order and never interleave reads of the
accumulator with further writes in this program) are embedded by their
net effect as insertion-ordered association lists built by grouping;
Python `set`s whose iteration order is never observable (only sorted
views or cardinalities are used) are embedded as insertion-ordered
duplicate-free lists.  The `while` loop of `_compute_type_chain` is
embedded with an explicit fuel argument; the theorem for the
termination claim shows the fuel bound used in the definition is
sufficient (any larger fuel gives the same result).
-/

namespace ValidateHierarchy

/-- Single-quote character, used in several error-message strings. -/
def sq : String := String.singleton (Char.ofNat 39)

/-- Model of Python `str.strip()` (also the net effect of the pandas
`.str.strip()` in `_normalize_str_series`): drop whitespace from both
ends.  Defined on the character list so it reduces in the kernel. -/
def pyStrip (s : String) : String :=
  String.mk (((s.data.dropWhile Char.isWhitespace).reverse.dropWhile Char.isWhitespace).reverse)

/-- Lexicographic comparison of character lists by code point, the
order Python string comparison uses. -/
def strLtB : List Char → List Char → Bool
  | [], [] => false
  | [], _ :: _ => true
  | _ :: _, [] => false
  | a :: as, b :: bs =>
      if a.toNat < b.toNat then true
      else if b.toNat < a.toNat then false
      else strLtB as bs

/-- String order used by Python `sorted` on strings. -/
def strLeB (s t : String) : Bool := !(strLtB t.data s.data)

/-- Insert into a sorted list (helper for `sortStr`). -/
def insertSorted (a : String) : List String → List String
  | [] => [a]
  | b :: l => if strLeB a b then a :: b :: l else b :: insertSorted a l

/-- Model of Python `sorted` on a list of strings: insertion sort by
code-point order. -/
def sortStr (l : List String) : List String := l.foldr insertSorted []

/-- Deduplicate a list keeping the first occurrence of each element.
This is the iteration order of a Python dict (or here, ordered set)
whose keys were inserted while scanning the list. -/
def dedupFirst (l : List String) : List String :=
  l.foldl (fun acc v => if v ∈ acc then acc else acc ++ [v]) []

/-- Insertion-ordered association list: the embedding of a Python dict. -/
abbrev Dict (α : Type) : Type := List (String × α)

/-- Dict lookup (`d.get(k)` / `d[k]`). -/
def dget {α : Type} (d : Dict α) (k : String) : Option α :=
  (d.find? (fun p => p.1 == k)).map (fun p => p.2)

/-- Cells of the embedded dataframe: a string, a boolean, or a missing
value (`NaN`/`None`). -/
inductive Cell where
  | s (v : String)
  | b (v : Bool)
  | none
deriving DecidableEq, Repr

/-- Optional string as a cell (`None` becomes a missing value). -/
def optCell : Option String → Cell
  | Option.some v => Cell.s v
  | Option.none => Cell.none

/-- Embedded dataframe: named columns and positionally aligned rows.
The row position is the 0..N-1 index the source establishes with
`reset_index(drop=True)` (line 146). -/
structure DF where
  columns : List String
  rows : List (List Cell)
deriving DecidableEq, Repr

/-- Value of the string coercion `astype(str)` after `fillna("")`:
missing values become the empty string. -/
def cellToStr : Cell → String
  | Cell.s v => v
  | Cell.b v => if v then "True" else "False"
  | Cell.none => ""

/-- Net effect of `_normalize_str_series` (lines 56-62) on one cell:
`fillna("").astype(str).str.strip()`. -/
def normCell (c : Cell) : String := pyStrip (cellToStr c)

/-- Cell of row `i` in column `c` (missing column or short row gives a
missing value). -/
def DF.cellAt (df : DF) (i : Nat) (c : String) : Cell :=
  match df.columns.findIdx? (fun x => x == c) with
  | Option.some j => (df.rows.getD i []).getD j Cell.none
  | Option.none => Cell.none

/-- Column assignment `df[c] = vals`: replaces the column if present,
otherwise appends it on the right (pandas semantics for a new column). -/
def DF.setCol (df : DF) (c : String) (vals : List Cell) : DF :=
  match df.columns.findIdx? (fun x => x == c) with
  | Option.some j => ⟨df.columns, (df.rows.zip vals).map (fun p => p.1.set j p.2)⟩
  | Option.none => ⟨df.columns ++ [c], (df.rows.zip vals).map (fun p => p.1 ++ [p.2])⟩

/-- Lines 48-53 of the source. -/
def REQUIRED_COLUMNS : List String :=
  ["Title", "Abbreviation", "Academic Unit Type", "Parent Academic Unit"]

/-- One input record after normalization of the four required columns
(lines 157-160). -/
structure InRow where
  title : String
  abbreviation : String
  unitType : String
  parentUnit : String
deriving DecidableEq, Repr

/-- Placeholder row used only as the default of `List.getD`. -/
def defaultRow : InRow := ⟨"", "", "", ""⟩

/-- Extraction and normalization of the four required columns of the
dataframe (lines 157-160). -/
def buildRows (df : DF) : List InRow :=
  (List.range df.rows.length).map (fun i =>
    ⟨normCell (df.cellAt i "Title"),
     normCell (df.cellAt i "Abbreviation"),
     normCell (df.cellAt i "Academic Unit Type"),
     normCell (df.cellAt i "Parent Academic Unit")⟩)

/-- Pairs `(abbreviation, unit type)` of the rows with a non-empty
abbreviation, in row order (the iteration of lines 224-226). -/
def abbrevPairs (rows : List InRow) : List (String × String) :=
  rows.filterMap (fun r =>
    if r.abbreviation = "" then Option.none else Option.some (r.abbreviation, r.unitType))

/-- Lines 223-226: `abbrev_to_type[a] = t` for every row with a
non-empty abbreviation.  A plain dict assignment overwrites, so the
value recorded for a duplicated abbreviation is the one of the LAST
row carrying it; the keys appear in first-occurrence order. -/
def abbrev_to_type (rows : List InRow) : Dict String :=
  (dedupFirst ((abbrevPairs rows).map (fun p => p.1))).map (fun a =>
    (a, ((((abbrevPairs rows).filter (fun q => q.1 == a)).map (fun q => q.2)).getLast?).getD ""))

/-- Pairs `(abbreviation, parent abbreviation)` of the rows with a
non-empty abbreviation (iteration of lines 208-210). -/
def parentPairs (rows : List InRow) : List (String × String) :=
  rows.filterMap (fun r =>
    if r.abbreviation = "" then Option.none else Option.some (r.abbreviation, r.parentUnit))

/-- Lines 207-210: `abbrev_to_parents.setdefault(abbr, set()).add(parent)`.
Keys in first-occurrence order; each value is the set (here: ordered,
duplicate-free list) of parent abbreviations seen for that key. -/
def abbrev_to_parents (rows : List InRow) : Dict (List String) :=
  (dedupFirst ((parentPairs rows).map (fun p => p.1))).map (fun a =>
    (a, dedupFirst (((parentPairs rows).filter (fun q => q.1 == a)).map (fun q => q.2))))

/-- Line 211: abbreviations whose set of non-empty parents has more
than one element. -/
def multi_parents (rows : List InRow) : Dict (List String) :=
  (abbrev_to_parents rows).filter (fun kv => 1 < (kv.2.filter (fun p => p ≠ "")).length)

/-- Per-row resolved parent type (lines 230-237): `None` for an empty
parent abbreviation, otherwise `abbrev_to_type.get(parent)`. -/
def parentTypeActualOf (rows : List InRow) (r : InRow) : Option String :=
  if r.parentUnit = "" then Option.none else dget (abbrev_to_type rows) r.parentUnit

/-- Per-row parent existence (lines 230-236): false for an empty parent
abbreviation, otherwise membership of the parent in `abbrev_to_type`. -/
def parentExistsOf (rows : List InRow) (r : InRow) : Bool :=
  (parentTypeActualOf rows r).isSome

/-- Pairs `(child unit type, resolved parent type)` over the rows where
the parent exists and its type is non-empty (`if p_exists and p_type:`,
line 249). -/
def hierPairs (rows : List InRow) : List (String × String) :=
  rows.filterMap (fun r =>
    match parentTypeActualOf rows r with
    | Option.some t => if t = "" then Option.none else Option.some (r.unitType, t)
    | Option.none => Option.none)

/-- Lines 245-251: per child type, the dict of counts of each observed
parent type.  Outer and inner keys in first-occurrence order, as the
nested `setdefault`/increment produces. -/
def type_to_parent_counts (rows : List InRow) : Dict (Dict Nat) :=
  (dedupFirst ((hierPairs rows).map (fun p => p.1))).map (fun ct =>
    (ct,
      (dedupFirst (((hierPairs rows).filter (fun q => q.1 == ct)).map (fun q => q.2))).map
        (fun pt =>
          (pt, (((hierPairs rows).filter (fun q => q.1 == ct)).map (fun q => q.2)).count pt))))

/-- Lines 263-264: the parent types attaining the maximal count
(`max(counts.values())`), in dict order. -/
def modesOf (counts : Dict Nat) : List String :=
  ((counts.filter (fun kv => kv.2 == (counts.map (fun p => p.2)).foldl max 0)).map (fun kv => kv.1))

/-- Lines 257-270: the inferred mapping child type → unique modal
parent type (`modes[0]` when `len(modes) == 1`).  A child type with a
tie among modes is skipped. -/
def childToParentTypeUniqueOf (tpc : Dict (Dict Nat)) : Dict String :=
  tpc.filterMap (fun p =>
    if p.2.isEmpty then Option.none
    else if (modesOf p.2).length = 1 then
      Option.some (p.1, (((modesOf p.2).head?).getD ""))
    else Option.none)

/-- Lines 257-270: the child types whose parent-type tally has a tie
for the mode (`len(modes) ≠ 1`). -/
def ambiguousChildTypesOf (tpc : Dict (Dict Nat)) : List String :=
  tpc.filterMap (fun p =>
    if p.2.isEmpty then Option.none
    else if (modesOf p.2).length = 1 then Option.none
    else Option.some p.1)

/-- The inferred mapping for a list of rows (variable
`child_to_parent_type_unique` of the source). -/
def child_to_parent_type_unique (rows : List InRow) : Dict String :=
  childToParentTypeUniqueOf (type_to_parent_counts rows)

/-- The ambiguous child types for a list of rows (variable
`ambiguous_child_types` of the source). -/
def ambiguous_child_types (rows : List InRow) : List String :=
  ambiguousChildTypesOf (type_to_parent_counts rows)

/-- Lines 117-120: `parent_to_child.setdefault(parent, child)` — the
FIRST child listed for each parent type wins. -/
def parent_to_child (m : Dict String) : Dict String :=
  (dedupFirst (m.map (fun p => p.2))).map (fun p =>
    (p, ((((m.filter (fun q => q.2 == p)).map (fun q => q.1)).head?).getD "")))

/-- Lines 122-127, the `while cur and cur not in seen` walk, with an
explicit fuel argument standing for the (proved sufficient) number of
iterations. -/
def chainWalkFuel (ptc : Dict String) : Nat → String → List String → List String
  | 0, _, _ => []
  | Nat.succ n, cur, seen =>
      if cur ≠ "" ∧ cur ∉ seen then
        match dget ptc cur with
        | Option.some nxt => cur :: chainWalkFuel ptc n nxt (seen ++ [cur])
        | Option.none => [cur]
      else []

/-- Lines 75-135 of the source: compute `(ordered_types, chain_errors)`
from the inferred child type → parent type mapping. -/
def _compute_type_chain (m : Dict String) : List String × List String :=
  let child_types := m.map (fun p => p.1)
  let parent_types := m.map (fun p => p.2)
  let roots := sortStr ((dedupFirst parent_types).filter (fun t => t ∉ child_types))
  let rootErrs :=
    if roots.length ≠ 1 then
      (if roots.length = 0 then
        ["Type chain error: no unique top type (cycle or all types are children)."]
      else
        ["Type chain error: multiple candidate top types: " ++
          String.intercalate ", " roots ++ "."])
    else []
  let same_level :=
    ((dedupFirst parent_types).map (fun p => (p, parent_types.count p))).filter
      (fun kv => 1 < kv.2)
  let levelErrs :=
    if same_level.isEmpty then []
    else
      ["Type chain error: multiple child types share the same parent type (more than one type at a level): " ++
        String.intercalate ", "
          (same_level.map (fun kv => kv.1 ++ " -> " ++ toString kv.2 ++ " children"))]
  let all_types := dedupFirst (child_types ++ parent_types)
  let ordered :=
    match roots with
    | [] => all_types
    | r0 :: _ =>
        let walk := chainWalkFuel (parent_to_child m) ((parent_to_child m).length + 2) r0 []
        walk ++ all_types.filter (fun t => t ∉ walk)
  (ordered, rootErrs ++ levelErrs)

/-- Lines 277-279: group the inferred mapping by parent type. -/
def parent_to_children (m : Dict String) : Dict (List String) :=
  (dedupFirst (m.map (fun p => p.2))).map (fun p =>
    (p, (m.filter (fun q => q.2 == p)).map (fun q => q.1)))

/-- Lines 280-288: the parent type whose child group of size above one
contains the given child type, if any. -/
def shareInfo (rows : List InRow) (ct : String) : Option String :=
  (((parent_to_children (child_to_parent_type_unique rows)).find?
    (fun kv => 1 < kv.2.length ∧ ct ∈ kv.2))).map (fun kv => kv.1)

/-- Line 292: `sorted(set(values) - set(keys))` of the inferred mapping. -/
def candidates_top_types (rows : List InRow) : List String :=
  sortStr ((dedupFirst ((child_to_parent_type_unique rows).map (fun p => p.2))).filter
    (fun t => t ∉ (child_to_parent_type_unique rows).map (fun p => p.1)))

/-- Line 293: the top type when there is exactly one candidate. -/
def top_type (rows : List InRow) : Option String :=
  match candidates_top_types rows with
  | [t] => Option.some t
  | _ => Option.none

/-- Lines 296-297: count of rows with an empty parent abbreviation. -/
def top_level_count (rows : List InRow) : Nat :=
  (rows.filter (fun r => r.parentUnit == "")).length

/-- Lines 190-194. -/
def f_missing_title (r : InRow) : Bool := r.title == ""

/-- Lines 191-196. -/
def f_missing_abbreviation (r : InRow) : Bool := r.abbreviation == ""

/-- Lines 192-198. -/
def f_missing_unit_type (r : InRow) : Bool := r.unitType == ""

/-- Lines 200-203: `df.duplicated("Abbreviation", keep=False)` masked
by non-emptiness: the abbreviation occurs more than once overall. -/
def f_duplicate_abbreviation (rows : List InRow) (r : InRow) : Bool :=
  decide (r.abbreviation ≠ "" ∧ 1 < (rows.map (fun x => x.abbreviation)).count r.abbreviation)

/-- Lines 212-220: the row's abbreviation is a key of `multi_parents`. -/
def f_multi_parent (rows : List InRow) (r : InRow) : Bool :=
  (dget (multi_parents rows) r.abbreviation).isSome

/-- Lines 230-239: non-empty parent abbreviation absent from
`abbrev_to_type`. -/
def f_parent_not_found (rows : List InRow) (r : InRow) : Bool :=
  decide (r.parentUnit ≠ "") && !(dget (abbrev_to_type rows) r.parentUnit).isSome

/-- Lines 280-288. -/
def f_multiple_share (rows : List InRow) (r : InRow) : Bool :=
  (shareInfo rows r.unitType).isSome

/-- Lines 298-304. -/
def f_top_count_not_one (rows : List InRow) (r : InRow) : Bool :=
  decide (top_level_count rows ≠ 1 ∧ r.parentUnit = "")

/-- Lines 305-308. -/
def f_no_top_level (rows : List InRow) (_r : InRow) : Bool :=
  decide (top_level_count rows = 0)

/-- Lines 312-320. -/
def f_top_row_wrong_type (rows : List InRow) (r : InRow) : Bool :=
  match top_type rows with
  | Option.some tt => decide (r.parentUnit = "" ∧ r.unitType ≠ tt)
  | Option.none => false

/-- Lines 322-329. -/
def f_top_type_has_parent (rows : List InRow) (r : InRow) : Bool :=
  match top_type rows with
  | Option.some tt => decide (r.unitType = tt ∧ r.parentUnit ≠ "")
  | Option.none => false

/-- Lines 341-348: the expected parent type is known, the parent
exists, and its actual type differs. -/
def f_parent_type_mismatch (rows : List InRow) (r : InRow) : Bool :=
  decide (r.parentUnit ≠ "") &&
    (match dget (child_to_parent_type_unique rows) r.unitType, parentTypeActualOf rows r with
     | Option.some ept, Option.some pt => decide (pt ≠ ept)
     | _, _ => false)

/-- Lines 349-365: no expected parent type, the parent exists, and the
child type is in the ambiguous set. -/
def f_ambiguous (rows : List InRow) (r : InRow) : Bool :=
  decide (r.parentUnit ≠ "") &&
    (dget (child_to_parent_type_unique rows) r.unitType).isNone &&
    (parentTypeActualOf rows r).isSome &&
    decide (r.unitType ∈ ambiguous_child_types rows)

/-- Column `err_missing_title`. -/
def err_missing_title_col (rows : List InRow) : List Bool := rows.map f_missing_title

/-- Column `err_missing_abbreviation`. -/
def err_missing_abbreviation_col (rows : List InRow) : List Bool :=
  rows.map f_missing_abbreviation

/-- Column `err_missing_academic_unit_type`. -/
def err_missing_academic_unit_type_col (rows : List InRow) : List Bool :=
  rows.map f_missing_unit_type

/-- Column `err_duplicate_abbreviation`. -/
def err_duplicate_abbreviation_col (rows : List InRow) : List Bool :=
  rows.map (f_duplicate_abbreviation rows)

/-- Column `err_multi_parent_for_abbreviation`. -/
def err_multi_parent_for_abbreviation_col (rows : List InRow) : List Bool :=
  rows.map (f_multi_parent rows)

/-- Column `err_parent_not_found`. -/
def err_parent_not_found_col (rows : List InRow) : List Bool :=
  rows.map (f_parent_not_found rows)

/-- Column `err_inconsistent_parent_type_for_child_type`: declared in
`ERR_COLS` (line 172) but never set by any rule, hence all false. -/
def err_inconsistent_parent_type_col (rows : List InRow) : List Bool :=
  rows.map (fun _ => false)

/-- Column `err_multiple_child_types_share_parent_type`. -/
def err_multiple_child_types_share_parent_type_col (rows : List InRow) : List Bool :=
  rows.map (f_multiple_share rows)

/-- Column `err_top_level_count_not_one`. -/
def err_top_level_count_not_one_col (rows : List InRow) : List Bool :=
  rows.map (f_top_count_not_one rows)

/-- Column `err_no_top_level`. -/
def err_no_top_level_col (rows : List InRow) : List Bool :=
  rows.map (f_no_top_level rows)

/-- Column `err_top_row_wrong_type`. -/
def err_top_row_wrong_type_col (rows : List InRow) : List Bool :=
  rows.map (f_top_row_wrong_type rows)

/-- Column `err_top_type_has_parent`. -/
def err_top_type_has_parent_col (rows : List InRow) : List Bool :=
  rows.map (f_top_type_has_parent rows)

/-- Column `err_parent_type_mismatch`. -/
def err_parent_type_mismatch_col (rows : List InRow) : List Bool :=
  rows.map (f_parent_type_mismatch rows)

/-- Column `err_ambiguous_parent_type_for_child_type`. -/
def err_ambiguous_parent_type_for_child_type_col (rows : List InRow) : List Bool :=
  rows.map (f_ambiguous rows)

/-- Column `_Parent Exists` (line 241). -/
def parent_exists_col (rows : List InRow) : List Bool := rows.map (parentExistsOf rows)

/-- Column `_Parent Type (actual)` (line 242). -/
def parent_type_actual_col (rows : List InRow) : List (Option String) :=
  rows.map (parentTypeActualOf rows)

/-- Column `_Expected Parent Type` (lines 335-367). -/
def expected_parent_type_col (rows : List InRow) : List (Option String) :=
  rows.map (fun r => dget (child_to_parent_type_unique rows) r.unitType)

/-- The `err_flags` dict of line 181, with the columns of lines 165-180
in declaration order. -/
def errFlagsDict (rows : List InRow) : Dict (List Bool) :=
  [("err_missing_title", err_missing_title_col rows),
   ("err_missing_abbreviation", err_missing_abbreviation_col rows),
   ("err_missing_academic_unit_type", err_missing_academic_unit_type_col rows),
   ("err_duplicate_abbreviation", err_duplicate_abbreviation_col rows),
   ("err_multi_parent_for_abbreviation", err_multi_parent_for_abbreviation_col rows),
   ("err_parent_not_found", err_parent_not_found_col rows),
   ("err_inconsistent_parent_type_for_child_type", err_inconsistent_parent_type_col rows),
   ("err_multiple_child_types_share_parent_type",
     err_multiple_child_types_share_parent_type_col rows),
   ("err_top_level_count_not_one", err_top_level_count_not_one_col rows),
   ("err_no_top_level", err_no_top_level_col rows),
   ("err_top_row_wrong_type", err_top_row_wrong_type_col rows),
   ("err_top_type_has_parent", err_top_type_has_parent_col rows),
   ("err_parent_type_mismatch", err_parent_type_mismatch_col rows),
   ("err_ambiguous_parent_type_for_child_type",
     err_ambiguous_parent_type_for_child_type_col rows)]

/-- Line 375: `any_err = pd.DataFrame(err_flags).any(axis=1)`. -/
def anyErrCol (rows : List InRow) : List Bool :=
  (List.range rows.length).map (fun i =>
    (errFlagsDict rows).any (fun kv => kv.2.getD i false))

/-- Line 376: `df["Row Valid"] = ~any_err`. -/
def rowValidCol (rows : List InRow) : List Bool := (anyErrCol rows).map (fun b => !b)

/-- Message of lines 357-365 for an ambiguous child type. -/
def ambiguousMsg (rows : List InRow) (ct : String) : String :=
  "Ambiguous parent type for this child type (tie among: " ++
    String.intercalate ", "
      (match dget (type_to_parent_counts rows) ct with
       | Option.some counts => sortStr (modesOf counts)
       | Option.none => []) ++ ")"

/-- Human-readable messages accumulated for one row by the `_add_err`
calls, in the order the source executes them.  Every condition below
is the flag condition of the corresponding rule. -/
def rowMessages (rows : List InRow) (r : InRow) : List String :=
  (if f_missing_title r then ["Missing Title"] else []) ++
  (if f_missing_abbreviation r then ["Missing Abbreviation"] else []) ++
  (if f_missing_unit_type r then ["Missing Academic Unit Type"] else []) ++
  (if f_duplicate_abbreviation rows r then ["Duplicate Abbreviation"] else []) ++
  (match dget (multi_parents rows) r.abbreviation with
   | Option.some ps =>
      ["Abbreviation maps to multiple parents: " ++
        String.intercalate ", " (sortStr (ps.filter (fun p => p ≠ "")))]
   | Option.none => []) ++
  (if f_parent_not_found rows r then ["Parent Academic Unit not found in file"] else []) ++
  (match shareInfo rows r.unitType with
   | Option.some p =>
      ["Multiple child types share parent type " ++ sq ++ p ++ sq ++
        " (violates single type per level)"]
   | Option.none => []) ++
  (if f_top_count_not_one rows r then
    ["Invalid number of top-level rows: expected 1, found " ++ toString (top_level_count rows)]
   else []) ++
  (if f_no_top_level rows r then ["No top-level row (a single root is required)"] else []) ++
  (match top_type rows with
   | Option.some tt =>
      (if r.parentUnit = "" ∧ r.unitType ≠ tt then
        ["Top-level row must be of top type " ++ sq ++ tt ++ sq]
       else []) ++
      (if r.unitType = tt ∧ r.parentUnit ≠ "" then
        ["Units of top type " ++ sq ++ tt ++ sq ++ " must not have a parent"]
       else [])
   | Option.none => []) ++
  (if r.parentUnit ≠ "" then
    (match dget (child_to_parent_type_unique rows) r.unitType, parentTypeActualOf rows r with
     | Option.some ept, Option.some pt =>
        if pt ≠ ept then
          ["Parent type mismatch: expected " ++ sq ++ ept ++ sq ++ ", found " ++ sq ++ pt ++ sq]
        else []
     | _, _ => []) ++
    (if (dget (child_to_parent_type_unique rows) r.unitType).isNone ∧
        (parentTypeActualOf rows r).isSome ∧ r.unitType ∈ ambiguous_child_types rows then
      [ambiguousMsg rows r.unitType]
     else [])
   else [])

/-- Column `Errors` (lines 370, 374): the per-row messages joined with
a fixed delimiter. -/
def errorsCol (rows : List InRow) : List String :=
  rows.map (fun r => String.intercalate "; " (rowMessages rows r))

/-- Summary field `duplicate_abbreviations` (line 383). -/
def duplicate_abbreviations_val (rows : List InRow) : Nat :=
  (rows.map (f_duplicate_abbreviation rows)).count true

/-- Summary field `unique_abbreviations` (line 382). -/
def unique_abbreviations_val (rows : List InRow) : Nat :=
  (dedupFirst (rows.map (fun r => r.abbreviation))).length

/-- Summary field `distinct_types` (line 384). -/
def distinct_types_val (rows : List InRow) : List String :=
  sortStr ((dedupFirst (rows.map (fun r => r.unitType))).filter (fun t => t ≠ ""))

/-- Summary field `ordered_types` (line 273/386). -/
def ordered_types_val (rows : List InRow) : List String :=
  (_compute_type_chain (child_to_parent_type_unique rows)).1

/-- Summary field `chain_errors` (line 273/387). -/
def chain_errors_val (rows : List InRow) : List String :=
  (_compute_type_chain (child_to_parent_type_unique rows)).2

/-- Summary field `rows_with_errors` (line 390). -/
def rows_with_errors_val (rows : List InRow) : Nat :=
  (rowValidCol rows).count false

/-- Summary field `ok` (line 380). -/
def ok_val (rows : List InRow) : Bool :=
  (rowValidCol rows).all (fun b => b) && (chain_errors_val rows).isEmpty

/-- The non-fatal summary record of lines 379-391. -/
structure SummaryData where
  ok : Bool
  total_rows : Nat
  unique_abbreviations : Nat
  duplicate_abbreviations : Nat
  distinct_types : List String
  child_to_parent_type_unique : Dict String
  ordered_types : List String
  chain_errors : List String
  top_type : Option String
  top_level_count : Nat
  rows_with_errors : Nat
deriving DecidableEq, Repr

/-- Result summary: either the fatal two-field dict of lines 152-155
(`ok: False` plus one `fatal_error` message) or the full record. -/
inductive Summary where
  | fatal (msg : String)
  | report (d : SummaryData)
deriving DecidableEq, Repr

/-- The `ok` field of either summary form. -/
def Summary.okv : Summary → Bool
  | Summary.fatal _ => false
  | Summary.report d => d.ok

/-- The `fatal_error` field (absent, hence `none`, on a full report). -/
def Summary.fatalMsg : Summary → Option String
  | Summary.fatal m => Option.some m
  | Summary.report _ => Option.none

/-- The `top_type` field of a full report. -/
def Summary.topTypeVal : Summary → Option String
  | Summary.fatal _ => Option.none
  | Summary.report d => d.top_type

/-- The `ordered_types` field of a full report. -/
def Summary.orderedTypesVal : Summary → List String
  | Summary.fatal _ => []
  | Summary.report d => d.ordered_types

/-- The `rows_with_errors` field of a full report. -/
def Summary.rowsWithErrorsVal : Summary → Nat
  | Summary.fatal _ => 0
  | Summary.report d => d.rows_with_errors

/-- Summary construction (lines 379-391). -/
def buildSummary (rows : List InRow) : SummaryData :=
  { ok := ok_val rows
    total_rows := rows.length
    unique_abbreviations := unique_abbreviations_val rows
    duplicate_abbreviations := duplicate_abbreviations_val rows
    distinct_types := distinct_types_val rows
    child_to_parent_type_unique := child_to_parent_type_unique rows
    ordered_types := ordered_types_val rows
    chain_errors := chain_errors_val rows
    top_type := top_type rows
    top_level_count := top_level_count rows
    rows_with_errors := rows_with_errors_val rows }

/-- Annotated output dataframe: the column assignments of lines
157-160, 241-242, 367, 372-373, 374 and 376, in execution order. -/
def annotatedDF (df : DF) (rows : List InRow) : DF :=
  let d1 := df.setCol "Title" (rows.map (fun r => Cell.s r.title))
  let d2 := d1.setCol "Abbreviation" (rows.map (fun r => Cell.s r.abbreviation))
  let d3 := d2.setCol "Academic Unit Type" (rows.map (fun r => Cell.s r.unitType))
  let d4 := d3.setCol "Parent Academic Unit" (rows.map (fun r => Cell.s r.parentUnit))
  let d5 := d4.setCol "_Parent Exists" ((parent_exists_col rows).map Cell.b)
  let d6 := d5.setCol "_Parent Type (actual)" ((parent_type_actual_col rows).map optCell)
  let d7 := d6.setCol "_Expected Parent Type" ((expected_parent_type_col rows).map optCell)
  let d8 := (errFlagsDict rows).foldl (fun d kv => d.setCol kv.1 (kv.2.map Cell.b)) d7
  let d9 := d8.setCol "Errors" ((errorsCol rows).map Cell.s)
  d9.setCol "Row Valid" ((rowValidCol rows).map Cell.b)

/-- Lines 138-393: the whole validation, on the copied dataframe value.
Checks the four required columns (lines 149-155, returning the fatal
summary on the first missing one), otherwise normalizes, annotates and
summarizes. -/
def validate_hierarchy (dfIn : DF) : DF × Summary :=
  match REQUIRED_COLUMNS.find? (fun c => decide (c ∉ dfIn.columns)) with
  | Option.some c => (dfIn, Summary.fatal ("Missing required column: " ++ c))
  | Option.none =>
      let rows := buildRows dfIn
      (annotatedDF dfIn rows, Summary.report (buildSummary rows))

/-- Model of the call `validate_hierarchy(df_in)` at the level of
object identity.  The heap is a list of dataframe objects addressed by
position; `df_in` is a reference into it.  Line 144 (`df =
df_in.copy()`) allocates a fresh object holding a copy of the value,
and every subsequent in-place operation of the function — the
`reset_index(..., inplace=True)` of line 146 and all column
assignments — writes to that fresh object only, which the final
`heap.set` records.  Returns the new heap, the reference to the
annotated dataframe object, and the summary. -/
def validate_hierarchy_heap (heap : List DF) (dfInRef : Nat) : List DF × Nat × Summary :=
  let dfIn := heap.getD dfInRef ⟨[], []⟩
  let heap1 := heap ++ [dfIn]
  let dfRef := heap.length
  let res := validate_hierarchy dfIn
  (heap1.set dfRef res.1, dfRef, res.2)

/-- Termination measure of the chain walk: number of candidate types
(the current one and every value of the parent→child index) not yet in
the seen set.  Each loop iteration strictly decreases it, which is why
the fuel bound used in `_compute_type_chain` suffices. -/
def walkMeasure (ptc : Dict String) (cur : String) (seen : List String) : Nat :=
  ((cur :: ptc.map (fun p => p.2)).toFinset \ seen.toFinset).card

/-- Example dataframe of the minimal-valid-chain scenario. -/
def dfMinimalChain : DF :=
  ⟨["Title", "Abbreviation", "Academic Unit Type", "Parent Academic Unit"],
   [[Cell.s "Univ", Cell.s "U", Cell.s "University", Cell.none],
    [Cell.s "Sci", Cell.s "SCI", Cell.s "College", Cell.s "U"],
    [Cell.s "CS", Cell.s "CS", Cell.s "Department", Cell.s "SCI"]]⟩

/-- Example rows with a duplicated abbreviation carrying two different
unit types. -/
def rowsLastWins : List InRow :=
  [⟨"T0", "X", "A", ""⟩, ⟨"T1", "X", "B", ""⟩, ⟨"T2", "C", "CT", "X"⟩]

/-- Example single well-formed row. -/
def rowsOneValid : List InRow := [⟨"T", "A", "X", ""⟩]

/-- Example dataframe missing two of the required columns. -/
def dfMissingCol : DF := ⟨["Title", "Abbreviation"], [[Cell.s "x", Cell.s "y"]]⟩

/-- Example rows with an even split of parent types for one child type. -/
def rowsTie : List InRow :=
  [⟨"S1", "S1", "Subject", ""⟩, ⟨"D1", "D1", "Department", ""⟩,
   ⟨"C1", "C1", "Course", "S1"⟩, ⟨"C2", "C2", "Course", "D1"⟩]

/-- Example rows where two child types share one parent type. -/
def rowsBranch : List InRow :=
  [⟨"Col", "COL", "College", ""⟩, ⟨"D", "DEP", "Department", "COL"⟩,
   ⟨"V", "DIV", "Division", "COL"⟩]

/-- Example rows with a duplicated abbreviation. -/
def rowsDupAbbr : List InRow := [⟨"A", "X", "T", ""⟩, ⟨"B", "X", "T", ""⟩]

/-- Example rows with two top-level rows. -/
def rowsTwoRoots : List InRow := [⟨"A", "A1", "T", ""⟩, ⟨"B", "B1", "T", ""⟩]

/-- Example child-type → parent-type mapping. -/
def mChain : Dict String := [("College", "University"), ("Department", "College")]

/-- Example one-column dataframe for the frame property. -/
def dfSmall : DF := ⟨["A"], [[Cell.s "x"]]⟩

/-! ## Helper lemmas -/

theorem foldl_dedup_mem (l : List String) : ∀ (acc : List String) (a : String),
    (a ∈ l.foldl (fun acc v => if v ∈ acc then acc else acc ++ [v]) acc) ↔ a ∈ acc ∨ a ∈ l := by
  induction l with
  | nil => intro acc a; simp
  | cons v t ih =>
      intro acc a
      simp only [List.foldl_cons]
      by_cases hv : v ∈ acc
      · rw [if_pos hv, ih, List.mem_cons]
        constructor
        · rintro (h | h)
          · exact Or.inl h
          · exact Or.inr (Or.inr h)
        · rintro (h | h | h)
          · exact Or.inl h
          · exact Or.inl (h ▸ hv)
          · exact Or.inr h
      · rw [if_neg hv, ih]
        simp only [List.mem_append, List.mem_singleton, List.mem_cons]
        tauto

theorem mem_dedupFirst (l : List String) (a : String) : a ∈ dedupFirst l ↔ a ∈ l := by
  unfold dedupFirst
  rw [foldl_dedup_mem]
  simp

theorem foldl_dedup_nodup (l : List String) : ∀ acc : List String, acc.Nodup →
    (l.foldl (fun acc v => if v ∈ acc then acc else acc ++ [v]) acc).Nodup := by
  induction l with
  | nil => intro acc h; simpa using h
  | cons v t ih =>
      intro acc h
      simp only [List.foldl_cons]
      by_cases hv : v ∈ acc
      · rw [if_pos hv]; exact ih acc h
      · rw [if_neg hv]
        refine ih _ (List.Nodup.append h (List.nodup_singleton v) ?_)
        intro x hx hx'
        rw [List.mem_singleton] at hx'
        exact hv (hx' ▸ hx)

theorem nodup_dedupFirst (l : List String) : (dedupFirst l).Nodup := by
  unfold dedupFirst
  exact foldl_dedup_nodup l [] List.nodup_nil

theorem dget_keysMap {α : Type} (g : String → α) :
    ∀ (ks : List String) (a : String), a ∈ ks →
      dget (ks.map (fun k => (k, g k))) a = Option.some (g a) := by
  intro ks
  induction ks with
  | nil => intro a h; simp at h
  | cons k t ih =>
      intro a ha
      by_cases hk : k = a
      · subst hk
        unfold dget
        simp
      · have hne : ((k, g k).1 == a) = false := by simpa using hk
        have ht : a ∈ t := by
          rcases List.mem_cons.mp ha with h | h
          · exact absurd h.symm hk
          · exact h
        have := ih a ht
        unfold dget at this ⊢
        rw [List.map_cons, List.find?_cons_of_neg _ (by simp [hne])]
        exact this

theorem keys_keysMap {α : Type} (g : String → α) (ks : List String) :
    (ks.map (fun k => (k, g k))).map (fun p => p.1) = ks := by
  rw [List.map_map]
  simp [Function.comp_def]

theorem dget_some_mem {α : Type} {d : Dict α} {a : String} {v : α}
    (h : dget d a = Option.some v) : (a, v) ∈ d := by
  unfold dget at h
  cases hf : d.find? (fun p => p.1 == a) with
  | none => rw [hf] at h; simp at h
  | some q =>
      rw [hf] at h
      have hp := List.find?_some hf
      have hm : q ∈ d := List.mem_of_find?_eq_some hf
      have h1 : q.1 = a := by simpa using hp
      have h2 : q.2 = v := by simpa using h
      have : q = (a, v) := by
        cases q
        simp only at h1 h2
        rw [h1, h2]
      exact this ▸ hm

theorem dget_eq_none {α : Type} {d : Dict α} {a : String}
    (h : ∀ p ∈ d, p.1 ≠ a) : dget d a = Option.none := by
  unfold dget
  rw [List.find?_eq_none.mpr]
  · rfl
  · intro x hx
    simpa using h x hx

theorem dget_of_mem_keys_nodup {α : Type} :
    ∀ {d : Dict α} {k : String} {v : α},
      (d.map (fun p => p.1)).Nodup → (k, v) ∈ d → dget d k = Option.some v := by
  intro d
  induction d with
  | nil => intro k v _ h; simp at h
  | cons p t ih =>
      intro k v hn hm
      rw [List.map_cons] at hn
      by_cases hk : p.1 = k
      · have hp : p = (k, v) := by
          rcases List.mem_cons.mp hm with h | h
          · exact h.symm
          · exfalso
            have : k ∈ t.map (fun p => p.1) := List.mem_map.mpr ⟨(k, v), h, rfl⟩
            exact (List.nodup_cons.mp hn).1 (hk ▸ this)
        unfold dget
        rw [List.find?_cons_of_pos _ (by simp [hk])]
        rw [hp]
        rfl
      · have hmt : (k, v) ∈ t := by
          rcases List.mem_cons.mp hm with h | h
          · exact absurd (congrArg Prod.fst h.symm) hk
          · exact h
        have := ih (List.nodup_cons.mp hn).2 hmt
        unfold dget at this ⊢
        rw [List.find?_cons_of_neg _ (by simpa using hk)]
        exact this

theorem map_getD {α β : Type} (f : α → β) (l : List α) (i : Nat) (hi : i < l.length)
    (d : α) (d' : β) : (l.map f).getD i d' = f (l.getD i d) := by
  rw [List.getD_eq_getElem _ _ (by simpa using hi), List.getD_eq_getElem _ _ hi,
    List.getElem_map]

theorem one_lt_length_of_mem_ne {α : Type} {l : List α} {x y : α}
    (hx : x ∈ l) (hy : y ∈ l) (hne : x ≠ y) : 1 < l.length := by
  cases l with
  | nil => simp at hx
  | cons a t =>
      cases t with
      | nil =>
          rw [List.mem_singleton] at hx hy
          exact absurd (hx.trans hy.symm) hne
      | cons b t2 => simp [List.length]

theorem two_le_count_snd {m : List (String × String)} {c1 c2 p : String}
    (h1 : (c1, p) ∈ m) (h2 : (c2, p) ∈ m) (hne : c1 ≠ c2) :
    2 ≤ (m.map (fun q => q.2)).count p := by
  induction m with
  | nil => simp at h1
  | cons q t ih =>
      rw [List.map_cons, List.count_cons]
      rcases List.mem_cons.mp h1 with e1 | m1
      · rcases List.mem_cons.mp h2 with e2 | m2
        · exact absurd (congrArg Prod.fst (e1.trans e2.symm)) hne
        · have hp : p ∈ t.map (fun q => q.2) := List.mem_map.mpr ⟨(c2, p), m2, rfl⟩
          have hc : 0 < (t.map (fun q => q.2)).count p := List.count_pos_iff.mpr hp
          have hq : (q.2 == p) = true := by rw [← e1]; simp
          rw [if_pos hq]
          omega
      · rcases List.mem_cons.mp h2 with e2 | m2
        · have hp : p ∈ t.map (fun q => q.2) := List.mem_map.mpr ⟨(c1, p), m1, rfl⟩
          have hc : 0 < (t.map (fun q => q.2)).count p := List.count_pos_iff.mpr hp
          have hq : (q.2 == p) = true := by rw [← e2]; simp
          rw [if_pos hq]
          omega
        · have := ih m1 m2
          split <;> omega

theorem isSome_optmap {α β : Type} (f : α → β) (o : Option α) :
    (o.map f).isSome = o.isSome := by
  cases o <;> rfl

/-! ## Claim theorems -/

/-- Claim C2: for every dataset and every row of the annotated output,
the `Row Valid` column is true if and only if every per-rule boolean
error-flag column (the err_* columns) is false on that row. -/
theorem c2_row_valid_iff (rows : List InRow) (i : Nat) (hi : i < rows.length) :
    ((rowValidCol rows).getD i false = true ↔
      ∀ kv ∈ errFlagsDict rows, kv.2.getD i false = false) := by
  have hlen : i < (anyErrCol rows).length := by
    simpa [anyErrCol] using hi
  unfold rowValidCol
  rw [map_getD (fun b => !b) (anyErrCol rows) i hlen false false]
  have hval : (anyErrCol rows).getD i false
      = (errFlagsDict rows).any (fun kv => kv.2.getD i false) := by
    unfold anyErrCol
    rw [map_getD _ _ i (by simpa using hi) 0 false]
    congr 1
    rw [List.getD_eq_getElem _ _ (by simpa using hi), List.getElem_range]
  rw [hval]
  constructor
  · intro h kv hkv
    have hfalse : (errFlagsDict rows).any (fun kv => kv.2.getD i false) = false := by
      cases hb : (errFlagsDict rows).any (fun kv => kv.2.getD i false)
      · rfl
      · rw [hb] at h; simp at h
    have := List.any_eq_false.mp hfalse kv hkv
    simpa using this
  · intro h
    have hfalse : (errFlagsDict rows).any (fun kv => kv.2.getD i false) = false :=
      List.any_eq_false.mpr (fun kv hkv => by rw [h kv hkv]; simp)
    rw [hfalse]
    rfl

/-- Witness for C2 at a concrete one-row dataset. -/
theorem c2_witness :
    0 < rowsOneValid.length ∧
      ((rowValidCol rowsOneValid).getD 0 false = true ↔
        ∀ kv ∈ errFlagsDict rowsOneValid, kv.2.getD 0 false = false) :=
  ⟨by decide, c2_row_valid_iff rowsOneValid 0 (by decide)⟩

/-- Claim C3: for every dataset missing a required column,
`validate_hierarchy` aborts with a single `fatal_error` message and
`ok = false`, and the returned dataframe is the input unchanged, so it
carries no annotation column the input did not already have. -/
theorem c3_missing_column (df : DF) (c : String) (hc : c ∈ REQUIRED_COLUMNS)
    (hmiss : c ∉ df.columns) :
    (∃ m, (validate_hierarchy df).2 = Summary.fatal m)
  ∧ (validate_hierarchy df).2.okv = false
  ∧ (validate_hierarchy df).1 = df
  ∧ ∀ a, a ∉ df.columns → a ∉ (validate_hierarchy df).1.columns := by
  cases hf : REQUIRED_COLUMNS.find? (fun c => decide (c ∉ df.columns)) with
  | none =>
      exfalso
      have := List.find?_eq_none.mp hf c hc
      simp at this
      exact hmiss this
  | some c' =>
      have h1 : validate_hierarchy df = (df, Summary.fatal ("Missing required column: " ++ c')) := by
        unfold validate_hierarchy
        rw [hf]
      refine ⟨⟨"Missing required column: " ++ c', by rw [h1]⟩, by rw [h1]; rfl, by rw [h1], ?_⟩
      intro a ha
      rw [h1]
      exact ha

/-- Witness for C3 at a concrete dataframe missing the Academic Unit
Type column. -/
theorem c3_witness :
    ("Academic Unit Type" ∈ REQUIRED_COLUMNS ∧ "Academic Unit Type" ∉ dfMissingCol.columns) ∧
      ((∃ m, (validate_hierarchy dfMissingCol).2 = Summary.fatal m)
       ∧ (validate_hierarchy dfMissingCol).2.okv = false
       ∧ (validate_hierarchy dfMissingCol).1 = dfMissingCol
       ∧ ∀ a, a ∉ dfMissingCol.columns → a ∉ (validate_hierarchy dfMissingCol).1.columns) :=
  ⟨⟨by decide, by decide⟩,
   c3_missing_column dfMissingCol "Academic Unit Type" (by decide) (by decide)⟩

/-- Claim C7: when the number of empty-parent rows differs from 1,
every empty-parent row is flagged `err_top_level_count_not_one`; when
that count is 0, every row is flagged `err_no_top_level`; when it is
exactly 1, neither flag is raised on any row. -/
theorem c7_top_level_flags (rows : List InRow) (i : Nat) (hi : i < rows.length) :
    (top_level_count rows ≠ 1 → (rows.getD i defaultRow).parentUnit = "" →
      (err_top_level_count_not_one_col rows).getD i false = true)
  ∧ (top_level_count rows = 0 → (err_no_top_level_col rows).getD i false = true)
  ∧ (top_level_count rows = 1 →
      (err_top_level_count_not_one_col rows).getD i false = false ∧
      (err_no_top_level_col rows).getD i false = false) := by
  unfold err_top_level_count_not_one_col err_no_top_level_col
  rw [map_getD (f_top_count_not_one rows) rows i hi defaultRow false,
    map_getD (f_no_top_level rows) rows i hi defaultRow false]
  unfold f_top_count_not_one f_no_top_level
  refine ⟨?_, ?_, ?_⟩
  · intro h1 h2
    simp only [decide_eq_true_eq]
    exact ⟨h1, h2⟩
  · intro h
    simp only [decide_eq_true_eq]
    exact h
  · intro h
    constructor
    · simp only [decide_eq_false_iff_not]
      rintro ⟨h1, -⟩
      exact h1 h
    · simp only [decide_eq_false_iff_not]
      omega

/-- Witness for C7 at a concrete dataset with two top-level rows. -/
theorem c7_witness :
    0 < rowsTwoRoots.length ∧
      ((top_level_count rowsTwoRoots ≠ 1 → (rowsTwoRoots.getD 0 defaultRow).parentUnit = "" →
        (err_top_level_count_not_one_col rowsTwoRoots).getD 0 false = true)
      ∧ (top_level_count rowsTwoRoots = 0 →
          (err_no_top_level_col rowsTwoRoots).getD 0 false = true)
      ∧ (top_level_count rowsTwoRoots = 1 →
          (err_top_level_count_not_one_col rowsTwoRoots).getD 0 false = false ∧
          (err_no_top_level_col rowsTwoRoots).getD 0 false = false)) :=
  ⟨by decide, c7_top_level_flags rowsTwoRoots 0 (by decide)⟩

/-- Claim C8: on the three-row minimal valid chain (University ←
College ← Department) the summary has ok true, top type University,
the ordered types University, College, Department, and no rows with
errors. -/
theorem c8_minimal_chain :
    (validate_hierarchy dfMinimalChain).2.okv = true
  ∧ (validate_hierarchy dfMinimalChain).2.topTypeVal = Option.some "University"
  ∧ (validate_hierarchy dfMinimalChain).2.orderedTypesVal
      = ["University", "College", "Department"]
  ∧ (validate_hierarchy dfMinimalChain).2.rowsWithErrorsVal = 0 := by
  refine ⟨?_, ?_, ?_, ?_⟩ <;> decide

/-- Claim C10: the call leaves the caller's dataframe object unchanged:
validation writes only to the copy allocated at entry, so every
pre-existing heap entry (in particular the argument) is preserved. -/
theorem c10_caller_frame (heap : List DF) (ref j : Nat) (hj : j < heap.length) :
    ((validate_hierarchy_heap heap ref).1)[j]? = heap[j]? := by
  show ((heap ++ [heap.getD ref ⟨[], []⟩]).set heap.length
    (validate_hierarchy (heap.getD ref ⟨[], []⟩)).1)[j]? = heap[j]?
  rw [List.getElem?_set_ne (by omega)]
  rw [List.getElem?_append]
  simp [hj]

/-- Witness for C10 at a concrete one-object heap. -/
theorem c10_witness :
    0 < [dfSmall].length ∧ ((validate_hierarchy_heap [dfSmall] 0).1)[0]? = [dfSmall][0]? :=
  ⟨by decide, c10_caller_frame [dfSmall] 0 0 (by decide)⟩

theorem abbrevPairs_group (rows : List InRow) (a : String) (ha : a ≠ "") :
    ((abbrevPairs rows).filter (fun q => q.1 == a)).map (fun q => q.2)
      = (rows.filter (fun r => r.abbreviation == a)).map (fun r => r.unitType) := by
  induction rows with
  | nil => rfl
  | cons r t ih =>
      by_cases hr : r.abbreviation = ""
      · have h1 : abbrevPairs (r :: t) = abbrevPairs t := by
          unfold abbrevPairs
          rw [List.filterMap_cons]
          simp [hr]
        have h2 : (r.abbreviation == a) = false := by
          rw [hr]
          simpa using fun h => ha h.symm
        rw [h1, List.filter_cons, h2]
        simpa using ih
      · have h1 : abbrevPairs (r :: t) = (r.abbreviation, r.unitType) :: abbrevPairs t := by
          unfold abbrevPairs
          rw [List.filterMap_cons]
          simp [hr]
        rw [h1, List.filter_cons, List.filter_cons]
        by_cases hra : r.abbreviation = a
        · have hb : (r.abbreviation == a) = true := by simpa using hra
          simp only [hb, if_true, List.map_cons]
          rw [ih]
        · have hb : (r.abbreviation == a) = false := by simpa using hra
          simp only [hb, Bool.false_eq_true, if_false]
          exact ih

/-- Counterexample to claim C1 as stated: on a dataset where
abbreviation X appears on row 0 with type A and on row 1 with type B,
the index maps X to B (the LAST occurrence), and the row whose parent
is X gets `_Parent Type (actual)` B, not the first occurrence's A. -/
theorem c1_counterexample :
    dget (abbrev_to_type rowsLastWins) "X" = Option.some "B"
  ∧ (parent_type_actual_col rowsLastWins).getD 2 Option.none = Option.some "B"
  ∧ (rowsLastWins.getD 0 defaultRow).abbreviation = "X"
  ∧ (rowsLastWins.getD 0 defaultRow).unitType = "A"
  ∧ (rowsLastWins.getD 2 defaultRow).parentUnit = "X"
  ∧ Option.some "B" ≠ Option.some "A" := by decide

/-- Claim C1 (amended): the abbreviation-to-unit-type index maps every
non-empty abbreviation to the unit type of the LAST row (highest row
index) carrying it, and every row whose parent equals that
abbreviation gets `_Parent Type (actual)` equal to that last
occurrence's type. -/
theorem c1_amended (rows : List InRow) (a : String) (i : Nat)
    (ha : a ≠ "") (hmem : ∃ r ∈ rows, r.abbreviation = a)
    (hi : i < rows.length) (hpar : (rows.getD i defaultRow).parentUnit = a) :
    dget (abbrev_to_type rows) a
      = ((rows.filter (fun r => r.abbreviation == a)).map (fun r => r.unitType)).getLast?
  ∧ (parent_type_actual_col rows).getD i Option.none
      = ((rows.filter (fun r => r.abbreviation == a)).map (fun r => r.unitType)).getLast? := by
  obtain ⟨r, hr, hra⟩ := hmem
  have hgrp := abbrevPairs_group rows a ha
  have hkey : a ∈ dedupFirst ((abbrevPairs rows).map (fun p => p.1)) := by
    rw [mem_dedupFirst]
    refine List.mem_map.mpr ⟨(a, r.unitType), List.mem_filterMap.mpr ⟨r, hr, ?_⟩, rfl⟩
    simp [hra, ha]
  have hdget : dget (abbrev_to_type rows) a
      = Option.some (((((abbrevPairs rows).filter (fun q => q.1 == a)).map
          (fun q => q.2)).getLast?).getD "") := by
    unfold abbrev_to_type
    exact dget_keysMap _ _ a hkey
  have hne : (rows.filter (fun r => r.abbreviation == a)).map (fun r => r.unitType) ≠ [] := by
    have hmem2 : r ∈ rows.filter (fun r => r.abbreviation == a) :=
      List.mem_filter.mpr ⟨hr, by simpa using hra⟩
    intro hnil
    rw [List.map_eq_nil_iff] at hnil
    rw [hnil] at hmem2
    simp at hmem2
  constructor
  · rw [hdget, hgrp, List.getLast?_eq_getLast _ hne]
    rfl
  · unfold parent_type_actual_col
    rw [map_getD (parentTypeActualOf rows) rows i hi defaultRow Option.none]
    unfold parentTypeActualOf
    rw [hpar, if_neg ha, hdget, hgrp, List.getLast?_eq_getLast _ hne]
    rfl

/-- Witness for the amended claim C1 at a concrete dataset. -/
theorem c1_witness :
    ("X" ≠ "" ∧ (∃ r ∈ rowsLastWins, r.abbreviation = "X") ∧ 2 < rowsLastWins.length
      ∧ (rowsLastWins.getD 2 defaultRow).parentUnit = "X") ∧
      (dget (abbrev_to_type rowsLastWins) "X"
        = ((rowsLastWins.filter (fun r => r.abbreviation == "X")).map
            (fun r => r.unitType)).getLast?
      ∧ (parent_type_actual_col rowsLastWins).getD 2 Option.none
        = ((rowsLastWins.filter (fun r => r.abbreviation == "X")).map
            (fun r => r.unitType)).getLast?) :=
  ⟨⟨by decide, ⟨⟨"T0", "X", "A", ""⟩, by decide, rfl⟩, by decide, by decide⟩,
   c1_amended rowsLastWins "X" 2 (by decide) ⟨⟨"T0", "X", "A", ""⟩, by decide, rfl⟩
     (by decide) (by decide)⟩

theorem one_lt_count_iff_exists_ne (l : List String) (i : Nat) (hi : i < l.length) :
    1 < l.count (l.getD i "") ↔
      ∃ j, j < l.length ∧ j ≠ i ∧ l.getD j "" = l.getD i "" := by
  rw [List.getD_eq_getElem l "" hi]
  constructor
  · intro h
    have hd : List.Duplicate (l[i]) l := List.duplicate_iff_two_le_count.mpr (by omega)
    obtain ⟨n, m, hnm, hx1, hx2⟩ := List.duplicate_iff_exists_distinct_get.mp hd
    by_cases hn : (n : Nat) = i
    · refine ⟨(m : Nat), m.isLt, ?_, ?_⟩
      · have : (n : Nat) < (m : Nat) := hnm
        omega
      · rw [List.getD_eq_getElem l "" m.isLt, ← List.get_eq_getElem]
        exact hx2.symm
    · refine ⟨(n : Nat), n.isLt, hn, ?_⟩
      rw [List.getD_eq_getElem l "" n.isLt, ← List.get_eq_getElem]
      exact hx1.symm
  · rintro ⟨j, hj, hji, hval⟩
    rw [List.getD_eq_getElem l "" hj] at hval
    have hd : List.Duplicate (l[i]) l := by
      rcases Nat.lt_or_ge j i with hlt | hge
      · refine List.duplicate_iff_exists_distinct_get.mpr ⟨⟨j, hj⟩, ⟨i, hi⟩, ?_, ?_, ?_⟩
        · exact hlt
        · rw [List.get_eq_getElem]
          exact hval.symm
        · rw [List.get_eq_getElem]
      · have hlt : i < j := by omega
        refine List.duplicate_iff_exists_distinct_get.mpr ⟨⟨i, hi⟩, ⟨j, hj⟩, ?_, ?_, ?_⟩
        · exact hlt
        · rw [List.get_eq_getElem]
        · rw [List.get_eq_getElem]
          exact hval.symm
    have := List.duplicate_iff_two_le_count.mp hd
    omega

/-- Claim C6: a row is flagged `err_duplicate_abbreviation` iff its
normalized abbreviation is non-empty and appears on at least one other
row (all occurrences flagged); when all non-empty abbreviations are
distinct the summary field `duplicate_abbreviations` is 0. -/
theorem c6_duplicate_abbreviation (rows : List InRow) (i : Nat) (hi : i < rows.length) :
    ((err_duplicate_abbreviation_col rows).getD i false = true ↔
      ((rows.getD i defaultRow).abbreviation ≠ "" ∧
        ∃ j, j < rows.length ∧ j ≠ i ∧
          (rows.getD j defaultRow).abbreviation = (rows.getD i defaultRow).abbreviation))
  ∧ (((rows.map (fun r => r.abbreviation)).filter (fun x => x ≠ "")).Nodup →
      duplicate_abbreviations_val rows = 0) := by
  have habbr : ∀ j, j < rows.length →
      (rows.getD j defaultRow).abbreviation
        = (rows.map (fun r => r.abbreviation)).getD j "" := by
    intro j hj
    rw [map_getD (fun r => r.abbreviation) rows j hj defaultRow ""]
  constructor
  · unfold err_duplicate_abbreviation_col
    rw [map_getD (f_duplicate_abbreviation rows) rows i hi defaultRow false]
    unfold f_duplicate_abbreviation
    rw [decide_eq_true_eq]
    constructor
    · rintro ⟨h1, h2⟩
      refine ⟨h1, ?_⟩
      have hcount : 1 < (rows.map (fun r => r.abbreviation)).count
          ((rows.map (fun r => r.abbreviation)).getD i "") := by
        rw [← habbr i hi]
        exact h2
      obtain ⟨j, hj, hji, hval⟩ :=
        (one_lt_count_iff_exists_ne (rows.map (fun r => r.abbreviation)) i
          (by simpa using hi)).mp hcount
      have hjr : j < rows.length := by simpa using hj
      exact ⟨j, hjr, hji, by rw [habbr j hjr, habbr i hi]; exact hval⟩
    · rintro ⟨h1, j, hj, hji, hval⟩
      refine ⟨h1, ?_⟩
      rw [habbr i hi]
      exact (one_lt_count_iff_exists_ne (rows.map (fun r => r.abbreviation)) i
        (by simpa using hi)).mpr
        ⟨j, by simpa using hj, hji, by rw [← habbr j hj, ← habbr i hi]; exact hval⟩
  · intro hnd
    unfold duplicate_abbreviations_val
    rw [List.count_eq_zero]
    intro hmem
    rw [List.mem_map] at hmem
    obtain ⟨r, hr, hf⟩ := hmem
    unfold f_duplicate_abbreviation at hf
    rw [decide_eq_true_eq] at hf
    obtain ⟨h1, h2⟩ := hf
    have hcf : (rows.map (fun r => r.abbreviation)).count r.abbreviation
        = ((rows.map (fun r => r.abbreviation)).filter
            (fun x => x ≠ "")).count r.abbreviation := by
      rw [List.count_filter]
      simpa using h1
    have hle := List.nodup_iff_count_le_one.mp hnd r.abbreviation
    omega

/-- Witness for C6 at a concrete dataset with a duplicated
abbreviation. -/
theorem c6_witness :
    0 < rowsDupAbbr.length ∧
      (((err_duplicate_abbreviation_col rowsDupAbbr).getD 0 false = true ↔
        ((rowsDupAbbr.getD 0 defaultRow).abbreviation ≠ "" ∧
          ∃ j, j < rowsDupAbbr.length ∧ j ≠ 0 ∧
            (rowsDupAbbr.getD j defaultRow).abbreviation
              = (rowsDupAbbr.getD 0 defaultRow).abbreviation))
      ∧ (((rowsDupAbbr.map (fun r => r.abbreviation)).filter (fun x => x ≠ "")).Nodup →
          duplicate_abbreviations_val rowsDupAbbr = 0)) :=
  ⟨by decide, c6_duplicate_abbreviation rowsDupAbbr 0 (by decide)⟩

theorem tpc_keys_nodup (rows : List InRow) :
    ((type_to_parent_counts rows).map (fun p => p.1)).Nodup := by
  unfold type_to_parent_counts
  rw [keys_keysMap]
  exact nodup_dedupFirst _

theorem mapping_none_of_tie (rows : List InRow) (ct : String) (counts : Dict Nat)
    (h1 : (ct, counts) ∈ type_to_parent_counts rows)
    (h2 : 2 ≤ (modesOf counts).length) :
    dget (child_to_parent_type_unique rows) ct = Option.none := by
  apply dget_eq_none
  intro q hq heq
  unfold child_to_parent_type_unique childToParentTypeUniqueOf at hq
  rw [List.mem_filterMap] at hq
  obtain ⟨w, hw, hfw⟩ := hq
  by_cases he : w.2.isEmpty = true
  · rw [if_pos he] at hfw
    simp at hfw
  · rw [if_neg he] at hfw
    by_cases hl : (modesOf w.2).length = 1
    · rw [if_pos hl] at hfw
      have hq1 : w.1 = q.1 := congrArg Prod.fst (Option.some.inj hfw)
      have hw1 : w.1 = ct := hq1.trans heq
      have hwpair : (ct, w.2) ∈ type_to_parent_counts rows := by
        have hww : w = (ct, w.2) := by
          cases w
          simp only at hw1 ⊢
          rw [hw1]
        exact hww ▸ hw
      have hdg1 := dget_of_mem_keys_nodup (tpc_keys_nodup rows) hwpair
      have hdg2 := dget_of_mem_keys_nodup (tpc_keys_nodup rows) h1
      have hceq : w.2 = counts := Option.some.inj (hdg1.symm.trans hdg2)
      rw [hceq] at hl
      omega
    · rw [if_neg hl] at hfw
      simp at hfw

theorem amb_of_tie (rows : List InRow) (ct : String) (counts : Dict Nat)
    (h1 : (ct, counts) ∈ type_to_parent_counts rows)
    (h2 : 2 ≤ (modesOf counts).length) :
    ct ∈ ambiguous_child_types rows := by
  unfold ambiguous_child_types ambiguousChildTypesOf
  rw [List.mem_filterMap]
  refine ⟨(ct, counts), h1, ?_⟩
  show (if counts.isEmpty then (Option.none : Option String)
    else if (modesOf counts).length = 1 then Option.none
    else Option.some ct) = Option.some ct
  have hne : ¬ (counts.isEmpty = true) := by
    intro h
    rw [List.isEmpty_iff] at h
    rw [h] at h2
    simp [modesOf] at h2
  rw [if_neg hne, if_neg (by omega)]

/-- Claim C4: a child type whose parent-type tally is tied for the
maximal count gets no entry in the inferred mapping, and every row of
that type with a non-empty, resolving parent is flagged ambiguous
(with the sorted tied parent types in its message) and never flagged
with a parent-type mismatch. -/
theorem c4_ambiguous_tie (rows : List InRow) (ct : String) (counts : Dict Nat) (i : Nat)
    (h1 : (ct, counts) ∈ type_to_parent_counts rows)
    (h2 : 2 ≤ (modesOf counts).length)
    (hi : i < rows.length)
    (hct : (rows.getD i defaultRow).unitType = ct)
    (hpar : (rows.getD i defaultRow).parentUnit ≠ "")
    (hres : (parentTypeActualOf rows (rows.getD i defaultRow)).isSome = true) :
    dget (child_to_parent_type_unique rows) ct = Option.none
  ∧ dget (type_to_parent_counts rows) ct = Option.some counts
  ∧ (err_ambiguous_parent_type_for_child_type_col rows).getD i false = true
  ∧ (err_parent_type_mismatch_col rows).getD i false = false
  ∧ ambiguousMsg rows ct ∈ rowMessages rows (rows.getD i defaultRow)
  ∧ ambiguousMsg rows ct =
      "Ambiguous parent type for this child type (tie among: " ++
        String.intercalate ", " (sortStr (modesOf counts)) ++ ")" := by
  have hmapnone := mapping_none_of_tie rows ct counts h1 h2
  have htpc : dget (type_to_parent_counts rows) ct = Option.some counts :=
    dget_of_mem_keys_nodup (tpc_keys_nodup rows) h1
  have hamb := amb_of_tie rows ct counts h1 h2
  refine ⟨hmapnone, htpc, ?_, ?_, ?_, ?_⟩
  · unfold err_ambiguous_parent_type_for_child_type_col
    rw [map_getD (f_ambiguous rows) rows i hi defaultRow false]
    unfold f_ambiguous
    rw [hct, hmapnone, hres]
    have hp1 : decide ((rows.getD i defaultRow).parentUnit ≠ "") = true := by
      simp only [decide_eq_true_eq]
      exact hpar
    have hp2 : decide (ct ∈ ambiguous_child_types rows) = true := by
      simp only [decide_eq_true_eq]
      exact hamb
    rw [hp1, hp2]
    rfl
  · unfold err_parent_type_mismatch_col
    rw [map_getD (f_parent_type_mismatch rows) rows i hi defaultRow false]
    unfold f_parent_type_mismatch
    rw [hct, hmapnone]
    simp
  · have hcond : (dget (child_to_parent_type_unique rows)
        (rows.getD i defaultRow).unitType).isNone = true ∧
        (parentTypeActualOf rows (rows.getD i defaultRow)).isSome = true ∧
        (rows.getD i defaultRow).unitType ∈ ambiguous_child_types rows := by
      rw [hct, hmapnone]
      exact ⟨rfl, hres, hamb⟩
    unfold rowMessages
    simp only [List.mem_append]
    right
    rw [if_pos hpar]
    simp only [List.mem_append]
    right
    rw [if_pos hcond, hct]
    exact List.mem_singleton.mpr rfl
  · unfold ambiguousMsg
    rw [htpc]

/-- Witness for C4 at a concrete dataset with an even parent-type
split for the child type Course. -/
theorem c4_witness :
    ((("Course", [("Subject", 1), ("Department", 1)]) ∈ type_to_parent_counts rowsTie)
      ∧ 2 ≤ (modesOf [("Subject", 1), ("Department", 1)]).length
      ∧ 2 < rowsTie.length
      ∧ (rowsTie.getD 2 defaultRow).unitType = "Course"
      ∧ (rowsTie.getD 2 defaultRow).parentUnit ≠ ""
      ∧ (parentTypeActualOf rowsTie (rowsTie.getD 2 defaultRow)).isSome = true) ∧
      (dget (child_to_parent_type_unique rowsTie) "Course" = Option.none
      ∧ dget (type_to_parent_counts rowsTie) "Course"
          = Option.some [("Subject", 1), ("Department", 1)]
      ∧ (err_ambiguous_parent_type_for_child_type_col rowsTie).getD 2 false = true
      ∧ (err_parent_type_mismatch_col rowsTie).getD 2 false = false
      ∧ ambiguousMsg rowsTie "Course" ∈ rowMessages rowsTie (rowsTie.getD 2 defaultRow)
      ∧ ambiguousMsg rowsTie "Course" =
          "Ambiguous parent type for this child type (tie among: " ++
            String.intercalate ", " (sortStr (modesOf [("Subject", 1), ("Department", 1)])) ++ ")") :=
  ⟨⟨by decide, by decide, by decide, by decide, by decide, by decide⟩,
   c4_ambiguous_tie rowsTie "Course" [("Subject", 1), ("Department", 1)] 2
     (by decide) (by decide) (by decide) (by decide) (by decide) (by decide)⟩

theorem compute_chain_errors_nonempty {m : Dict String} {c1 c2 p : String}
    (h1 : (c1, p) ∈ m) (h2 : (c2, p) ∈ m) (hne : c1 ≠ c2) :
    (_compute_type_chain m).2 ≠ [] := by
  have hcount : 2 ≤ (m.map (fun q => q.2)).count p := two_le_count_snd h1 h2 hne
  have hpmem : p ∈ dedupFirst (m.map (fun q => q.2)) :=
    (mem_dedupFirst _ _).mpr (List.mem_map.mpr ⟨(c1, p), h1, rfl⟩)
  have hsl : (((dedupFirst (m.map (fun q => q.2))).map
      (fun q => (q, (m.map (fun r => r.2)).count q))).filter (fun kv => 1 < kv.2)) ≠ [] := by
    apply List.ne_nil_of_mem (a := (p, (m.map (fun r => r.2)).count p))
    refine List.mem_filter.mpr ⟨List.mem_map.mpr ⟨p, hpmem, rfl⟩, ?_⟩
    simp only [decide_eq_true_eq]
    omega
  simp only [_compute_type_chain]
  intro heq
  rw [List.append_eq_nil] at heq
  have h2' := heq.2
  rw [if_neg ?hne2] at h2'
  case hne2 =>
    intro hemp
    rw [List.isEmpty_iff] at hemp
    exact hsl hemp
  simp at h2'

/-- Claim C5: when two distinct child types map to the same parent type
in the inferred mapping, every row of such a child type is flagged
`err_multiple_child_types_share_parent_type` and the chain_errors list
of the summary is non-empty. -/
theorem c5_branching (rows : List InRow) (c1 c2 p : String) (i : Nat)
    (h1 : (c1, p) ∈ child_to_parent_type_unique rows)
    (h2 : (c2, p) ∈ child_to_parent_type_unique rows)
    (hne : c1 ≠ c2)
    (hi : i < rows.length) (hct : (rows.getD i defaultRow).unitType = c1) :
    (err_multiple_child_types_share_parent_type_col rows).getD i false = true
  ∧ chain_errors_val rows ≠ [] := by
  constructor
  · unfold err_multiple_child_types_share_parent_type_col
    rw [map_getD (f_multiple_share rows) rows i hi defaultRow false]
    unfold f_multiple_share shareInfo
    rw [hct]
    have hc1 : c1 ∈ (((child_to_parent_type_unique rows).filter
        (fun q => q.2 == p)).map (fun q => q.1)) :=
      List.mem_map.mpr ⟨(c1, p), List.mem_filter.mpr ⟨h1, by simp⟩, rfl⟩
    have hc2 : c2 ∈ (((child_to_parent_type_unique rows).filter
        (fun q => q.2 == p)).map (fun q => q.1)) :=
      List.mem_map.mpr ⟨(c2, p), List.mem_filter.mpr ⟨h2, by simp⟩, rfl⟩
    have hlen := one_lt_length_of_mem_ne hc1 hc2 hne
    have hmemp : (p, (((child_to_parent_type_unique rows).filter
        (fun q => q.2 == p)).map (fun q => q.1)))
          ∈ parent_to_children (child_to_parent_type_unique rows) := by
      unfold parent_to_children
      refine List.mem_map.mpr ⟨p, ?_, rfl⟩
      exact (mem_dedupFirst _ _).mpr (List.mem_map.mpr ⟨(c1, p), h1, rfl⟩)
    rw [isSome_optmap, List.find?_isSome]
    refine ⟨_, hmemp, ?_⟩
    simp only [decide_eq_true_eq]
    exact ⟨hlen, hc1⟩
  · exact compute_chain_errors_nonempty h1 h2 hne

/-- Witness for C5 at a concrete dataset where Department and Division
both map to College. -/
theorem c5_witness :
    ((("Department", "College") ∈ child_to_parent_type_unique rowsBranch)
      ∧ (("Division", "College") ∈ child_to_parent_type_unique rowsBranch)
      ∧ ("Department" : String) ≠ "Division"
      ∧ 1 < rowsBranch.length
      ∧ (rowsBranch.getD 1 defaultRow).unitType = "Department") ∧
      ((err_multiple_child_types_share_parent_type_col rowsBranch).getD 1 false = true
      ∧ chain_errors_val rowsBranch ≠ []) :=
  ⟨⟨by decide, by decide, by decide, by decide, by decide⟩,
   c5_branching rowsBranch "Department" "Division" "College" 1
     (by decide) (by decide) (by decide) (by decide) (by decide)⟩

theorem dget_mem_values {ptc : Dict String} {cur nxt : String}
    (h : dget ptc cur = Option.some nxt) : nxt ∈ ptc.map (fun p => p.2) :=
  List.mem_map.mpr ⟨(cur, nxt), dget_some_mem h, rfl⟩

theorem walkMeasure_decreases (ptc : Dict String) (cur nxt : String) (seen : List String)
    (hcur : cur ∉ seen) (hnxt : dget ptc cur = Option.some nxt) :
    walkMeasure ptc nxt (seen ++ [cur]) < walkMeasure ptc cur seen := by
  unfold walkMeasure
  apply Finset.card_lt_card
  refine (Finset.ssubset_iff_of_subset ?_).mpr ?_
  · intro x hx
    rw [Finset.mem_sdiff] at hx ⊢
    obtain ⟨hx1, hx2⟩ := hx
    rw [List.toFinset_append] at hx2
    constructor
    · rw [List.toFinset_cons, Finset.mem_insert] at hx1 ⊢
      rcases hx1 with h | h
      · right
        rw [h, List.mem_toFinset]
        exact dget_mem_values hnxt
      · right
        exact h
    · intro hxseen
      exact hx2 (Finset.mem_union_left _ hxseen)
  · refine ⟨cur, ?_, ?_⟩
    · rw [Finset.mem_sdiff, List.toFinset_cons, Finset.mem_insert]
      refine ⟨Or.inl rfl, ?_⟩
      rw [List.mem_toFinset]
      exact hcur
    · intro hmem
      rw [Finset.mem_sdiff] at hmem
      apply hmem.2
      rw [List.toFinset_append]
      apply Finset.mem_union_right
      simp

theorem chainWalkFuel_fuel_eq (ptc : Dict String) :
    ∀ (n1 n2 : Nat) (cur : String) (seen : List String),
      walkMeasure ptc cur seen < n1 → walkMeasure ptc cur seen < n2 →
      chainWalkFuel ptc n1 cur seen = chainWalkFuel ptc n2 cur seen := by
  intro n1
  induction n1 with
  | zero => intro n2 cur seen h1 h2; omega
  | succ k ih =>
      intro n2 cur seen h1 h2
      cases n2 with
      | zero => omega
      | succ k2 =>
          simp only [chainWalkFuel]
          by_cases hc : cur ≠ "" ∧ cur ∉ seen
          · rw [if_pos hc, if_pos hc]
            cases hd : dget ptc cur with
            | none => rfl
            | some nxt =>
                have hdec := walkMeasure_decreases ptc cur nxt seen hc.2 hd
                have e := ih k2 nxt (seen ++ [cur]) (by omega) (by omega)
                show cur :: chainWalkFuel ptc k nxt (seen ++ [cur])
                  = cur :: chainWalkFuel ptc k2 nxt (seen ++ [cur])
                rw [e]
          · rw [if_neg hc, if_neg hc]

theorem chainWalkFuel_nodup (ptc : Dict String) :
    ∀ (n : Nat) (cur : String) (seen : List String),
      (chainWalkFuel ptc n cur seen).Nodup ∧
      ∀ t ∈ chainWalkFuel ptc n cur seen, t ∉ seen := by
  intro n
  induction n with
  | zero => intro cur seen; simp [chainWalkFuel]
  | succ k ih =>
      intro cur seen
      simp only [chainWalkFuel]
      by_cases hc : cur ≠ "" ∧ cur ∉ seen
      · rw [if_pos hc]
        cases hd : dget ptc cur with
        | none =>
            refine ⟨List.nodup_singleton _, ?_⟩
            intro t ht
            rw [List.mem_singleton] at ht
            rw [ht]
            exact hc.2
        | some nxt =>
            obtain ⟨ihn, ihf⟩ := ih nxt (seen ++ [cur])
            constructor
            · rw [List.nodup_cons]
              refine ⟨?_, ihn⟩
              intro hmem
              have hni := ihf cur hmem
              simp at hni
            · intro t ht
              rw [List.mem_cons] at ht
              rcases ht with h | h
              · rw [h]
                exact hc.2
              · intro hts
                exact (ihf t h) (List.mem_append_left _ hts)
      · rw [if_neg hc]
        simp

theorem compute_chain_ordered_nodup (m : Dict String) :
    ((_compute_type_chain m).1).Nodup := by
  simp only [_compute_type_chain]
  split
  · exact nodup_dedupFirst _
  · refine List.Nodup.append ?_ (List.Nodup.filter _ (nodup_dedupFirst _)) ?_
    · exact (chainWalkFuel_nodup (parent_to_child m) _ _ []).1
    · intro t ht hmem
      rw [List.mem_filter] at hmem
      have hnm := hmem.2
      simp only [decide_eq_true_eq] at hnm
      exact hnm ht

/-- Claim C9: for every finite child→parent type mapping, the
root-to-leaf walk of `_compute_type_chain` terminates — any fuel at or
above the bound used in the definition yields the same walk, because
the seen-set guard stops it — and the resulting ordered_types list
contains no type twice. -/
theorem c9_walk_termination (m : Dict String) (fuel : Nat) (cur : String)
    (hf : (parent_to_child m).length + 2 ≤ fuel) :
    chainWalkFuel (parent_to_child m) fuel cur []
      = chainWalkFuel (parent_to_child m) ((parent_to_child m).length + 2) cur []
  ∧ ((_compute_type_chain m).1).Nodup := by
  have hb : walkMeasure (parent_to_child m) cur [] ≤ (parent_to_child m).length + 1 := by
    unfold walkMeasure
    have h1 : ((cur :: (parent_to_child m).map (fun p => p.2)).toFinset \
        ([] : List String).toFinset).card
        = (cur :: (parent_to_child m).map (fun p => p.2)).toFinset.card := by
      simp
    rw [h1]
    have h2 := List.toFinset_card_le (cur :: (parent_to_child m).map (fun p => p.2))
    simp only [List.length_cons, List.length_map] at h2
    omega
  exact ⟨chainWalkFuel_fuel_eq (parent_to_child m) fuel ((parent_to_child m).length + 2)
    cur [] (by omega) (by omega), compute_chain_ordered_nodup m⟩

/-- Witness for C9 at a concrete two-entry mapping and fuel 10. -/
theorem c9_witness :
    ((parent_to_child mChain).length + 2 ≤ 10) ∧
      (chainWalkFuel (parent_to_child mChain) 10 "University" []
        = chainWalkFuel (parent_to_child mChain)
            ((parent_to_child mChain).length + 2) "University" []
      ∧ ((_compute_type_chain mChain).1).Nodup) :=
  ⟨by decide, c9_walk_termination mChain 10 "University" (by decide)⟩

end ValidateHierarchy
